import Mathlib

/-!
Shallow embedding of the social-feed backend: the feed composer
(routes/tweets.js, GET /api/tweets), the interaction annotator
(addUserInteractionInfo), and the social action coordinator
(like/unlike/retweet/unretweet in routes/tweets.js and
follow/unfollow in routes/users.js), over the Mongoose models
(models/Tweet.js, the User model).

Object ids are modelled as Nat.  The document store is modelled as
in-memory lists of documents; a find-by-id is List.find? on the id
field, a save is a replace-by-id, and the atomic update operators
of the store (push to an array field, pull from an array field) are
modelled as the corresponding list transformations (push appends at
the end; pull removes every occurrence).
-/

namespace TwBackend

/-- A Tweet document (models/Tweet.js): content, user (author id), image
(empty string = no media), likes and retweets (lists of user ids),
optional retweetData and replyTo references, pinned flag, and the
createdAt timestamp added by the timestamps option. -/
structure Tweet where
  id : Nat
  user : Nat
  content : String
  image : String
  likes : List Nat
  retweets : List Nat
  retweetData : Option Nat
  replyTo : Option Nat
  pinned : Bool
  createdAt : Nat
deriving DecidableEq, Repr

/-- A User document (the User model): identity and profile fields the
core logic reads, plus the mirrored relation lists: following and
followers (user ids), likes and retweets (tweet ids). -/
structure User where
  id : Nat
  name : String
  username : String
  following : List Nat
  followers : List Nat
  likes : List Nat
  retweets : List Nat
deriving DecidableEq, Repr

/-- The document store state: the users and tweets collections, in
storage order. -/
structure DB where
  users : List User
  tweets : List Tweet
deriving DecidableEq, Repr

/-- Tweet.findById. -/
def findTweet (db : DB) (i : Nat) : Option Tweet :=
  db.tweets.find? (fun t => t.id == i)

/-- User.findById. -/
def findUser (db : DB) (i : Nat) : Option User :=
  db.users.find? (fun u => u.id == i)

/-- User.findOne on the username field. -/
def findUserByName (db : DB) (un : String) : Option User :=
  db.users.find? (fun u => u.username == un)

/-- The error taxonomy of the routes: notFound is the 404 responses
(User not found, Tweet not found), conflict the 400 idempotency-guard
responses (already liked, not liked, already retweeted, already
following, not following), invalidOp the 400 self-follow and
self-unfollow responses, and storeError the 500 Server error response
produced when a handler throws. -/
inductive Err where
  | notFound
  | conflict
  | invalidOp
  | storeError
deriving DecidableEq, Repr

/-! ## Model of the store's regex content filter

The search filter puts the raw query string into the store predicate
content matches regex query with the case-insensitive option
(routes/tweets.js line 101).  The store's regex engine is modelled
here for the fragment the proofs need: a pattern is a sequence of
characters in which the dot matches any single character and every
other character matches itself case-insensitively, and matching is
an unanchored search (the pattern may match starting at any position
of the subject). -/

/-- One pattern character against one subject character: dot is a
wildcard, anything else compares case-insensitively. -/
def charMatch (p c : Char) : Bool :=
  p == '.' || p.toLower == c.toLower

/-- Match the whole pattern against a prefix of the subject. -/
def matchHere : List Char → List Char → Bool
  | [], _ => true
  | _ :: _, [] => false
  | p :: ps, c :: cs => charMatch p c && matchHere ps cs

/-- Unanchored search: try to match the pattern at every start
position of the subject. -/
def regexSearch (ps : List Char) : List Char → Bool
  | [] => matchHere ps []
  | c :: cs => matchHere ps (c :: cs) || regexSearch ps cs

/-- The content filter the feed route installs for a search query:
the query interpreted as a case-insensitive regex, searched anywhere
in the content. -/
def regexMatchI (pat s : String) : Bool :=
  regexSearch pat.toList s.toList

/-- Modelled from the spec's words: literal case-insensitive
character-by-character comparison of the query against a prefix of
the subject (no metacharacter is special). -/
def litHere : List Char → List Char → Bool
  | [], _ => true
  | _ :: _, [] => false
  | q :: qs, c :: cs => (q.toLower == c.toLower) && litHere qs cs

/-- Modelled from the spec's words: the query occurs as a literal
case-insensitive substring starting at some position. -/
def litSearch (qs : List Char) : List Char → Bool
  | [] => litHere qs []
  | c :: cs => litHere qs (c :: cs) || litSearch qs cs

/-- Modelled from the spec's words: s contains q as a case-insensitive
literal substring. -/
def containsSubstrCI (s q : String) : Bool :=
  litSearch q.toList s.toList

/-- The regex metacharacters; a query avoiding all of them is a plain
literal string to the store's regex engine. -/
def regexMetaChars : List Char :=
  ['\\', '^', '$', '.', '|', '?', '*', '+', '(', ')', '[', ']', '\x7b', '\x7d']

/-- The query uses no regex metacharacter. -/
def metaFree (q : String) : Bool :=
  q.toList.all (fun c => !(regexMetaChars.contains c))

/-! ## Feed composer (GET /api/tweets) -/

/-- The query parameters of GET /api/tweets (routes/tweets.js line 82);
page defaults to 1 and limit to 10 at the route boundary. -/
structure FeedParams where
  username : Option String
  query : Option String
  type : Option String
  replyToId : Option Nat
  page : Nat
  limit : Nat
deriving DecidableEq, Repr

/-- The replyTo constraint of the match criteria: no constraint, an
equality constraint, or the field-absent constraint. -/
inductive ReplyCrit where
  | any
  | eq (i : Nat)
  | notExists
deriving DecidableEq, Repr

/-- The incrementally built matchCriteria object of the feed route. -/
structure MatchCriteria where
  userEq : Option Nat
  contentRegex : Option String
  imageNe : Bool
  replyTo : ReplyCrit
deriving DecidableEq, Repr

/-- The store predicate denoted by a criteria object. -/
def tweetMatches (mc : MatchCriteria) (t : Tweet) : Bool :=
  (match mc.userEq with
    | none => true
    | some uid => t.user == uid) &&
  (match mc.contentRegex with
    | none => true
    | some q => regexMatchI q t.content) &&
  (!mc.imageNe || !(t.image == "")) &&
  (match mc.replyTo with
    | ReplyCrit.any => true
    | ReplyCrit.eq i => t.replyTo == some i
    | ReplyCrit.notExists => t.replyTo.isNone)

/-- Stable insertion step for the createdAt-descending sort. -/
def insertDesc (t : Tweet) : List Tweet → List Tweet
  | [] => [t]
  | h :: rest =>
    if h.createdAt ≤ t.createdAt then t :: h :: rest
    else h :: insertDesc t rest

/-- The store's sort by createdAt descending (ties keep storage
order, which the spec leaves unspecified beyond the timestamp). -/
def sortByCreatedAtDesc : List Tweet → List Tweet
  | [] => []
  | h :: rest => insertDesc h (sortByCreatedAtDesc rest)

/-- skip ((page-1)*limit) then limit. -/
def paginate (page limit : Nat) (l : List Tweet) : List Tweet :=
  (l.drop ((page - 1) * limit)).take limit

/-- A find-many on the tweets collection with a predicate, the
createdAt-descending sort, and skip/limit pagination. -/
def runFind (db : DB) (pred : Tweet → Bool) (page limit : Nat) : List Tweet :=
  paginate page limit (sortByCreatedAtDesc (db.tweets.filter pred))

/-- The likes short-circuit fires when type is the string likes and a
username was supplied (routes/tweets.js lines 113-114). -/
def likesCond (p : FeedParams) : Bool :=
  (p.type == some "likes") && p.username.isSome

/-- The home-timeline condition: none of username, query, replyToId
given, and type absent or the string tweets (line 159). -/
def homeCond (p : FeedParams) : Bool :=
  p.username.isNone && p.query.isNone && p.replyToId.isNone &&
    (p.type.isNone || p.type == some "tweets")

/-- The incrementally built matchCriteria (lines 85-154): author
constraint from the resolved username, content regex from the query,
non-empty image for type media, and the replyTo constraint (equality
when replyToId is given, else field-absent when type is absent or
tweets, else unconstrained). -/
def buildCriteria (p : FeedParams) (userCrit : Option Nat) : MatchCriteria :=
  { userEq := userCrit
    contentRegex := p.query
    imageNe := p.type == some "media"
    replyTo :=
      match p.replyToId with
      | some i => ReplyCrit.eq i
      | none =>
        if p.type.isNone || p.type == some "tweets" then ReplyCrit.notExists
        else ReplyCrit.any }

/-- The home-timeline predicate: authored by the viewer or someone the
viewer follows (the route pushes the viewer's own id onto the
following list before the in-query) and not a reply (lines 161-167). -/
def homePred (viewer : User) (t : Tweet) : Bool :=
  (viewer.following ++ [viewer.id]).contains t.user && t.replyTo.isNone

/-- The feed route after the username resolution: the likes
short-circuit (with its own second username lookup), then the
home-timeline branch, then the generic criteria query. -/
def getTweetsAux (db : DB) (viewer : User) (p : FeedParams)
    (userCrit : Option Nat) : Except Err (List Tweet) :=
  if likesCond p then
    match p.username.bind (fun un => findUserByName db un) with
    | none => Except.error Err.notFound
    | some u => Except.ok (runFind db (fun t => u.likes.contains t.id) p.page p.limit)
  else if homeCond p then
    Except.ok (runFind db (homePred viewer) p.page p.limit)
  else
    Except.ok (runFind db (tweetMatches (buildCriteria p userCrit)) p.page p.limit)

/-- GET /api/tweets: resolve the username first (404 when it does not
resolve, lines 88-97), then dispatch. -/
def getTweets (db : DB) (viewer : User) (p : FeedParams) : Except Err (List Tweet) :=
  match p.username with
  | none => getTweetsAux db viewer p none
  | some un =>
    match findUserByName db un with
    | none => Except.error Err.notFound
    | some u => getTweetsAux db viewer p (some u.id)

/-- Modelled from the spec's words: the newest-like-first ordering of
a user's liked tweets.  The user's likes list is in like order (the
like route pushes at the end), so the most recent like is the last
element; newest-like-first is therefore the reverse of the likes
list, resolved against the store. -/
def newestLikeFirst (db : DB) (u : User) : List Tweet :=
  u.likes.reverse.filterMap (fun i => findTweet db i)

/-! ## Interaction annotator (addUserInteractionInfo) -/

/-- The author summary a populate preloads (id, name, username). -/
structure UserSummary where
  id : Nat
  name : String
  username : String
deriving DecidableEq, Repr

/-- A preloaded reply parent: the parent tweet id together with its
populated author; user is none when the author document could not be
preloaded (the populate resolved to null). -/
structure PopulatedReply where
  id : Nat
  user : Option UserSummary
deriving DecidableEq, Repr

/-- A tweet as the feed hands it to the annotator: the document plus
the populated replyTo, which is none both when the tweet is not a
reply and when the parent tweet itself could not be preloaded. -/
structure PopulatedTweet where
  tweet : Tweet
  replyTo : Option PopulatedReply
deriving DecidableEq, Repr

/-- The enriched view the annotator returns per tweet. -/
structure AnnotatedTweet where
  tweet : Tweet
  isLiked : Bool
  isRetweeted : Bool
  likesCount : Nat
  retweetsCount : Nat
  commentsCount : Nat
  replyToUser : Option UserSummary
deriving DecidableEq, Repr

/-- One iteration of addUserInteractionInfo (routes/tweets.js lines
479-510): membership tests on the likes and retweets lists, the live
reply count, and the reply-parent author summary.  When replyTo is
populated but its author is not, the code reads a field of null and
throws, which the route's catch turns into the 500 response: modelled
as the storeError outcome. -/
def annotateOne (db : DB) (user : User) (pt : PopulatedTweet) :
    Except Err AnnotatedTweet :=
  match pt.replyTo with
  | none =>
    Except.ok
      { tweet := pt.tweet
        isLiked := pt.tweet.likes.contains user.id
        isRetweeted := pt.tweet.retweets.contains user.id
        likesCount := pt.tweet.likes.length
        retweetsCount := pt.tweet.retweets.length
        commentsCount := (db.tweets.filter (fun t => t.replyTo == some pt.tweet.id)).length
        replyToUser := none }
  | some parent =>
    match parent.user with
    | none => Except.error Err.storeError
    | some author =>
      Except.ok
        { tweet := pt.tweet
          isLiked := pt.tweet.likes.contains user.id
          isRetweeted := pt.tweet.retweets.contains user.id
          likesCount := pt.tweet.likes.length
          retweetsCount := pt.tweet.retweets.length
          commentsCount := (db.tweets.filter (fun t => t.replyTo == some pt.tweet.id)).length
          replyToUser := some author }

/-- Promise.all over fallible per-element computations: the first
rejection rejects the whole call, otherwise the results keep the
input order. -/
def mapExcept {α β : Type} (f : α → Except Err β) : List α → Except Err (List β)
  | [] => Except.ok []
  | a :: l =>
    match f a with
    | Except.error e => Except.error e
    | Except.ok b =>
      match mapExcept f l with
      | Except.error e => Except.error e
      | Except.ok bs => Except.ok (b :: bs)

/-- addUserInteractionInfo over the whole page: Promise.all rejects
when any per-tweet computation throws, so the list annotator fails as
a whole on the first failure. -/
def addUserInteractionInfo (db : DB) (tweets : List PopulatedTweet)
    (user : User) : Except Err (List AnnotatedTweet) :=
  mapExcept (fun pt => annotateOne db user pt) tweets

/-! ## Social action coordinator -/

/-- One store write: replace-or-transform the document with the given
id in the tweets or users collection. -/
inductive WriteOp where
  | tweetWrite (id : Nat) (f : Tweet → Tweet)
  | userWrite (id : Nat) (f : User → User)

/-- Apply a transformation to every document whose id matches. -/
def updateById {α : Type} (idf : α → Nat) (i : Nat) (g : α → α)
    (l : List α) : List α :=
  l.map (fun x => if idf x == i then g x else x)

/-- Execute one write against the store. -/
def applyWrite (db : DB) : WriteOp → DB
  | WriteOp.tweetWrite i f => { db with tweets := updateById Tweet.id i f db.tweets }
  | WriteOp.userWrite i f => { db with users := updateById User.id i f db.users }

/-- Execute a sequence of writes in order. -/
def applyWrites (db : DB) (ws : List WriteOp) : DB :=
  ws.foldl applyWrite db

/-- POST /api/tweets/:id/like (routes/tweets.js lines 300-339): 404
when the tweet is missing, the conflict guard on the tweet's likes
list, then two writes: save the tweet with the viewer id unshifted
onto likes, and push the tweet id onto the viewer's likes list. -/
def likeTweet (db : DB) (uid tid : Nat) : Except Err (List WriteOp) :=
  match findTweet db tid with
  | none => Except.error Err.notFound
  | some tweet =>
    if tweet.likes.contains uid then Except.error Err.conflict
    else
      Except.ok
        [ WriteOp.tweetWrite tweet.id (fun _ => { tweet with likes := uid :: tweet.likes }),
          WriteOp.userWrite uid (fun u => { u with likes := u.likes ++ [tweet.id] }) ]

/-- POST /api/tweets/:id/unlike (lines 344-385): 404 when missing, the
conflict guard on absence from the tweet's likes list, then two
writes: save the tweet with every occurrence of the viewer id
filtered out of likes, and pull the tweet id from the viewer's likes
list. -/
def unlikeTweet (db : DB) (uid tid : Nat) : Except Err (List WriteOp) :=
  match findTweet db tid with
  | none => Except.error Err.notFound
  | some tweet =>
    if !(tweet.likes.contains uid) then Except.error Err.conflict
    else
      Except.ok
        [ WriteOp.tweetWrite tweet.id
            (fun _ => { tweet with likes := tweet.likes.filter (fun l => !(l == uid)) }),
          WriteOp.userWrite uid (fun u => { u with likes := u.likes.filter (fun x => !(x == tweet.id)) }) ]

/-- POST /api/tweets/:id/retweet (lines 390-429), symmetric to like on
the retweets lists. -/
def retweetTweet (db : DB) (uid tid : Nat) : Except Err (List WriteOp) :=
  match findTweet db tid with
  | none => Except.error Err.notFound
  | some tweet =>
    if tweet.retweets.contains uid then Except.error Err.conflict
    else
      Except.ok
        [ WriteOp.tweetWrite tweet.id (fun _ => { tweet with retweets := uid :: tweet.retweets }),
          WriteOp.userWrite uid (fun u => { u with retweets := u.retweets ++ [tweet.id] }) ]

/-- POST /api/tweets/:id/unretweet (lines 434-475), symmetric to
unlike on the retweets lists. -/
def unretweetTweet (db : DB) (uid tid : Nat) : Except Err (List WriteOp) :=
  match findTweet db tid with
  | none => Except.error Err.notFound
  | some tweet =>
    if !(tweet.retweets.contains uid) then Except.error Err.conflict
    else
      Except.ok
        [ WriteOp.tweetWrite tweet.id
            (fun _ => { tweet with retweets := tweet.retweets.filter (fun r => !(r == uid)) }),
          WriteOp.userWrite uid (fun u => { u with retweets := u.retweets.filter (fun x => !(x == tweet.id)) }) ]

/-- POST /api/users/:id/follow (routes/users.js lines 247-294): the
self-check comes first (before the target lookup), then 404 when the
target is missing, then the conflict guard on the viewer's following
list, then two pushes: target onto the viewer's following and viewer
onto the target's followers. -/
def followUser (db : DB) (viewer : User) (target : Nat) : Except Err (List WriteOp) :=
  if target == viewer.id then Except.error Err.invalidOp
  else
    match findUser db target with
    | none => Except.error Err.notFound
    | some _ =>
      if viewer.following.contains target then Except.error Err.conflict
      else
        Except.ok
          [ WriteOp.userWrite viewer.id (fun u => { u with following := u.following ++ [target] }),
            WriteOp.userWrite target (fun u => { u with followers := u.followers ++ [viewer.id] }) ]

/-- POST /api/users/:id/unfollow (lines 299-346): the self-check comes
first, then 404 when the target is missing, then the conflict guard
on absence from the viewer's following list, then two pulls. -/
def unfollowUser (db : DB) (viewer : User) (target : Nat) : Except Err (List WriteOp) :=
  if target == viewer.id then Except.error Err.invalidOp
  else
    match findUser db target with
    | none => Except.error Err.notFound
    | some _ =>
      if !(viewer.following.contains target) then Except.error Err.conflict
      else
        Except.ok
          [ WriteOp.userWrite viewer.id
              (fun u => { u with following := u.following.filter (fun x => !(x == target)) }),
            WriteOp.userWrite target
              (fun u => { u with followers := u.followers.filter (fun x => !(x == viewer.id)) }) ]

/-- Run a like to completion: an error response leaves the store
untouched, a success applies the writes. -/
def likeRun (db : DB) (uid tid : Nat) : DB × Option Err :=
  match likeTweet db uid tid with
  | Except.error e => (db, some e)
  | Except.ok ws => (applyWrites db ws, none)

/-- Run an unlike to completion. -/
def unlikeRun (db : DB) (uid tid : Nat) : DB × Option Err :=
  match unlikeTweet db uid tid with
  | Except.error e => (db, some e)
  | Except.ok ws => (applyWrites db ws, none)

/-- Run a retweet to completion. -/
def retweetRun (db : DB) (uid tid : Nat) : DB × Option Err :=
  match retweetTweet db uid tid with
  | Except.error e => (db, some e)
  | Except.ok ws => (applyWrites db ws, none)

/-- Run an unretweet to completion. -/
def unretweetRun (db : DB) (uid tid : Nat) : DB × Option Err :=
  match unretweetTweet db uid tid with
  | Except.error e => (db, some e)
  | Except.ok ws => (applyWrites db ws, none)

/-! ## Concrete stores used by the scenario and witness theorems -/

/-- The viewer of the home-timeline scenario: follows users 1 and 2. -/
def userV : User :=
  { id := 0, name := "V", username := "v", following := [1, 2],
    followers := [], likes := [], retweets := [] }

/-- Scenario tweet T1: posted by followed user 1 at time 1. -/
def tweetT1 : Tweet :=
  { id := 101, user := 1, content := "t1", image := "", likes := [],
    retweets := [], retweetData := none, replyTo := none, pinned := false,
    createdAt := 1 }

/-- Scenario tweet T2: posted by followed user 2 at time 2 as a reply. -/
def tweetT2 : Tweet :=
  { id := 102, user := 2, content := "t2", image := "", likes := [],
    retweets := [], retweetData := none, replyTo := some 999, pinned := false,
    createdAt := 2 }

/-- Scenario tweet T3: posted by followed user 1 at time 3. -/
def tweetT3 : Tweet :=
  { id := 103, user := 1, content := "t3", image := "", likes := [],
    retweets := [], retweetData := none, replyTo := none, pinned := false,
    createdAt := 3 }

/-- The home-timeline scenario store. -/
def dbHomeScenario : DB :=
  { users := [userV], tweets := [tweetT1, tweetT2, tweetT3] }

/-- A bare home-timeline request with the default page and limit. -/
def homeScenarioParams : FeedParams :=
  { username := none, query := none, type := none, replyToId := none,
    page := 1, limit := 10 }

/-- The likes-scenario user: liked tweet 20 first and tweet 10 last
(the like route pushes onto the end of the likes list). -/
def userAlice : User :=
  { id := 1, name := "Alice", username := "alice", following := [],
    followers := [], likes := [20, 10], retweets := [] }

/-- The older tweet (created at time 3) that was liked most recently. -/
def tweetOld : Tweet :=
  { id := 10, user := 2, content := "old", image := "", likes := [1],
    retweets := [], retweetData := none, replyTo := none, pinned := false,
    createdAt := 3 }

/-- The newer tweet (created at time 7) that was liked first. -/
def tweetNew : Tweet :=
  { id := 20, user := 2, content := "new", image := "", likes := [1],
    retweets := [], retweetData := none, replyTo := none, pinned := false,
    createdAt := 7 }

/-- The likes-scenario store. -/
def dbLikesScenario : DB :=
  { users := [userAlice], tweets := [tweetOld, tweetNew] }

/-- The likes-tab request for the likes scenario. -/
def likesScenarioParams : FeedParams :=
  { username := some "alice", query := none, type := some "likes",
    replyToId := none, page := 1, limit := 10 }

/-- A tweet whose content is the single letter a: it does not contain
a literal dot, but the dot regex matches it. -/
def tweetLetterA : Tweet :=
  { id := 1, user := 0, content := "a", image := "", likes := [],
    retweets := [], retweetData := none, replyTo := none, pinned := false,
    createdAt := 1 }

/-- The search-scenario store. -/
def dbSearchScenario : DB :=
  { users := [userV], tweets := [tweetLetterA] }

/-- A search request whose query is a single dot. -/
def searchScenarioParams : FeedParams :=
  { username := none, query := some ".", type := none, replyToId := none,
    page := 1, limit := 10 }

/-- The i-th tweet of the 25-tweet pagination demo, already in
createdAt-descending order. -/
def demoTweet (i : Nat) : Tweet :=
  { id := i, user := 0, content := "d", image := "", likes := [],
    retweets := [], retweetData := none, replyTo := none, pinned := false,
    createdAt := 25 - i }

/-- The 25 matching tweets of the pagination scenario. -/
def demoFeed25 : List Tweet :=
  (List.range 25).map demoTweet

/-- The witness tweet for the action theorems: id 5, liked by user 9. -/
def wTweet : Tweet :=
  { id := 5, user := 1, content := "w", image := "", likes := [9],
    retweets := [9], retweetData := none, replyTo := none, pinned := false,
    createdAt := 4 }

/-- The witness viewer for the action theorems. -/
def wViewer : User :=
  { id := 7, name := "W", username := "w", following := [],
    followers := [], likes := [], retweets := [] }

/-- The witness follow target. -/
def wTarget : User :=
  { id := 8, name := "X", username := "x", following := [],
    followers := [], likes := [], retweets := [] }

/-- The witness store for the action theorems. -/
def wDB : DB :=
  { users := [wViewer, wTarget], tweets := [wTweet] }

/-- A witness store whose mirror invariant is already violated: the
viewer's likes list holds tweet 5 although tweet 5 does not hold the
viewer, and the target's followers list holds the viewer although
the viewer follows nobody. -/
def wDBViolated : DB :=
  { users :=
      [ { wViewer with likes := [5] },
        { wTarget with followers := [7] } ],
    tweets := [wTweet] }

/-- A populated tweet whose reply parent was preloaded together with
its author. -/
def wPopulated : PopulatedTweet :=
  { tweet := wTweet,
    replyTo := some { id := 3, user := some { id := 2, name := "P", username := "p" } } }

/-- A populated tweet whose reply parent was preloaded but whose
parent author was not (the nested populate resolved to null). -/
def wDangling : PopulatedTweet :=
  { tweet := wTweet, replyTo := some { id := 3, user := none } }

/-- The annotation the annotator produces for wPopulated. -/
def wAnnotated : AnnotatedTweet :=
  { tweet := wTweet, isLiked := false, isRetweeted := false,
    likesCount := 1, retweetsCount := 1, commentsCount := 0,
    replyToUser := some { id := 2, name := "P", username := "p" } }

/-! ## Helper lemmas -/

theorem mem_insertDesc {a t : Tweet} {l : List Tweet} :
    a ∈ insertDesc t l ↔ a = t ∨ a ∈ l := by
  induction l with
  | nil => simp [insertDesc]
  | cons h rest ih =>
    by_cases hc : h.createdAt ≤ t.createdAt
    · simp [insertDesc, hc]
    · simp [insertDesc, hc, ih]
      tauto

theorem mem_sortDesc {a : Tweet} {l : List Tweet} :
    a ∈ sortByCreatedAtDesc l ↔ a ∈ l := by
  induction l with
  | nil => simp [sortByCreatedAtDesc]
  | cons h rest ih => simp [sortByCreatedAtDesc, mem_insertDesc, ih]

theorem length_insertDesc (t : Tweet) (l : List Tweet) :
    (insertDesc t l).length = l.length + 1 := by
  induction l with
  | nil => rfl
  | cons h rest ih =>
    by_cases hc : h.createdAt ≤ t.createdAt
    · simp [insertDesc, hc]
    · simp [insertDesc, hc, ih]

theorem length_sortDesc (l : List Tweet) :
    (sortByCreatedAtDesc l).length = l.length := by
  induction l with
  | nil => rfl
  | cons h rest ih => simp [sortByCreatedAtDesc, length_insertDesc, ih]

theorem pairwise_insertDesc {t : Tweet} {l : List Tweet}
    (h : l.Pairwise (fun a b => b.createdAt ≤ a.createdAt)) :
    (insertDesc t l).Pairwise (fun a b => b.createdAt ≤ a.createdAt) := by
  induction l with
  | nil => simp [insertDesc]
  | cons hd rest ih =>
    rcases List.pairwise_cons.mp h with ⟨hhd, hrest⟩
    by_cases hc : hd.createdAt ≤ t.createdAt
    · rw [insertDesc, if_pos hc]
      refine List.pairwise_cons.mpr ⟨?_, h⟩
      intro x hx
      rcases List.mem_cons.mp hx with hx | hx
      · subst hx; exact hc
      · exact Nat.le_trans (hhd x hx) hc
    · rw [insertDesc, if_neg hc]
      refine List.pairwise_cons.mpr ⟨?_, ih hrest⟩
      intro x hx
      rcases mem_insertDesc.mp hx with hx | hx
      · subst hx; omega
      · exact hhd x hx

theorem sorted_sortDesc (l : List Tweet) :
    (sortByCreatedAtDesc l).Pairwise (fun a b => b.createdAt ≤ a.createdAt) := by
  induction l with
  | nil => simp [sortByCreatedAtDesc]
  | cons h rest ih => exact pairwise_insertDesc ih

theorem mem_paginate {a : Tweet} {page limit : Nat} {l : List Tweet}
    (h : a ∈ paginate page limit l) : a ∈ l :=
  List.mem_of_mem_drop (List.mem_of_mem_take h)

theorem length_paginate_le (page limit : Nat) (l : List Tweet) :
    (paginate page limit l).length ≤ limit :=
  List.length_take_le limit _

theorem paginate_eq_nil {page limit : Nat} {l : List Tweet}
    (h : l.length ≤ (page - 1) * limit) : paginate page limit l = [] := by
  unfold paginate
  rw [List.drop_eq_nil_of_le h, List.take_nil]

theorem paginate_all {limit : Nat} {l : List Tweet}
    (h : l.length ≤ limit) : paginate 1 limit l = l := by
  unfold paginate
  simp [List.take_of_length_le h]

theorem find?_updateById_eq {α : Type} (idf : α → Nat) (i : Nat) (g : α → α)
    (hg : ∀ x, idf x = i → idf (g x) = i) :
    ∀ (l : List α) (a : α), l.find? (fun x => idf x == i) = some a →
      (updateById idf i g l).find? (fun x => idf x == i) = some (g a) := by
  intro l
  induction l with
  | nil => intro a h; simp [List.find?] at h
  | cons hd rest ih =>
    intro a h
    by_cases hc : idf hd = i
    · have hb : (idf hd == i) = true := by simp [hc]
      have hb2 : (idf (g hd) == i) = true := by simp [hg hd hc]
      simp only [List.find?, hb] at h
      have ha : hd = a := by injection h
      subst ha
      simp only [updateById, List.map_cons, hb, if_true, List.find?, hb2]
    · have hb : (idf hd == i) = false := by simp [hc]
      simp only [List.find?, hb] at h
      simp only [updateById, List.map_cons, hb, Bool.false_eq_true, if_false, List.find?]
      exact ih a h

theorem find?_updateById_ne {α : Type} (idf : α → Nat) (i j : Nat) (g : α → α)
    (hg : ∀ x, idf (g x) = idf x) (hij : i ≠ j) (l : List α) :
    (updateById idf i g l).find? (fun x => idf x == j) =
      l.find? (fun x => idf x == j) := by
  induction l with
  | nil => rfl
  | cons hd rest ih =>
    simp only [updateById, List.map_cons] at *
    by_cases hi : idf hd = i
    · have hdj : idf hd ≠ j := fun he => hij (hi.symm.trans he)
      have h1 : (idf hd == i) = true := by simp [hi]
      have h2 : (idf (g hd) == j) = false := by
        simpa [hg hd, hi] using hij
      have h3 : (idf hd == j) = false := by simp [hdj]
      simp only [h1, if_true, List.find?, h2, h3]
      exact ih
    · have h1 : (idf hd == i) = false := by simp [hi]
      by_cases hj : idf hd = j
      · have h2 : (idf hd == j) = true := by simp [hj]
        simp only [h1, Bool.false_eq_true, if_false, List.find?, h2]
      · have h2 : (idf hd == j) = false := by simp [hj]
        simp only [h1, Bool.false_eq_true, if_false, List.find?, h2]
        exact ih

theorem users_applyWrite_tweetWrite (db : DB) (i : Nat) (f : Tweet → Tweet) :
    (applyWrite db (WriteOp.tweetWrite i f)).users = db.users := rfl

theorem tweets_applyWrite_userWrite (db : DB) (i : Nat) (f : User → User) :
    (applyWrite db (WriteOp.userWrite i f)).tweets = db.tweets := rfl

theorem beq_false_of_contains_false {l : List Nat} {u : Nat}
    (h : l.contains u = false) : ∀ a ∈ l, (a == u) = false := by
  intro a ha
  cases hb : (a == u) with
  | false => rfl
  | true =>
    have : a = u := eq_of_beq hb
    subst this
    have : l.contains a = true := by simp [ha]
    rw [this] at h
    cases h

theorem filter_ne_of_contains_false {l : List Nat} {u : Nat}
    (h : l.contains u = false) : l.filter (fun x => !(x == u)) = l := by
  refine List.filter_eq_self.mpr ?_
  intro a ha
  simp [beq_false_of_contains_false h a ha]

theorem matchHere_eq_litHere {ps : List Char} (h : '.' ∉ ps) :
    ∀ cs, matchHere ps cs = litHere ps cs := by
  induction ps with
  | nil => intro cs; rfl
  | cons p ps ih =>
    intro cs
    have hp : p ≠ '.' := fun he => h (he ▸ List.mem_cons_self p ps)
    have h2 : '.' ∉ ps := fun hm => h (List.mem_cons_of_mem _ hm)
    cases cs with
    | nil => rfl
    | cons c cs2 =>
      have hb : (p == '.') = false := by simp [hp]
      simp [matchHere, litHere, charMatch, ih h2, hb]

theorem regexSearch_eq_litSearch {ps : List Char} (h : '.' ∉ ps) :
    ∀ cs, regexSearch ps cs = litSearch ps cs := by
  intro cs
  induction cs with
  | nil => simpa [regexSearch, litSearch] using matchHere_eq_litHere h []
  | cons c cs2 ih => simp [regexSearch, litSearch, matchHere_eq_litHere h, ih]

theorem dot_not_mem_of_metaFree {q : String} (h : metaFree q = true) :
    '.' ∉ q.toList := by
  intro hm
  have h2 := (List.all_eq_true.mp h) '.' hm
  simp [regexMetaChars] at h2

theorem mapExcept_error_of_mem {α β : Type} (f : α → Except Err β) (l : List α)
    (x : α) (hx : x ∈ l) (hf : f x = Except.error Err.storeError)
    (hall : ∀ y e, f y = Except.error e → e = Err.storeError) :
    mapExcept f l = Except.error Err.storeError := by
  induction l with
  | nil => cases hx
  | cons hd rest ih =>
    cases hh : f hd with
    | error e =>
      have he := hall hd e hh
      subst he
      simp [mapExcept, hh]
    | ok b =>
      rcases List.mem_cons.mp hx with hx | hx
      · subst hx; rw [hf] at hh; cases hh
      · have hr := ih hx
        simp [mapExcept, hh, hr]

theorem annotateOne_error {db : DB} {user : User} {pt : PopulatedTweet} {e : Err}
    (h : annotateOne db user pt = Except.error e) : e = Err.storeError := by
  rcases hr : pt.replyTo with _ | parent
  · simp [annotateOne, hr] at h
  · rcases hu : parent.user with _ | author
    · simp [annotateOne, hr, hu] at h
      exact h.symm
    · simp [annotateOne, hr, hu] at h

theorem homeCond_parts {p : FeedParams} (h : homeCond p = true) :
    p.username = none ∧ p.query = none ∧ p.replyToId = none ∧
      (p.type = none ∨ p.type = some "tweets") := by
  unfold homeCond at h
  simp only [Bool.and_eq_true, Bool.or_eq_true, Option.isNone_iff_eq_none,
    beq_iff_eq] at h
  obtain ⟨⟨⟨h1, h2⟩, h3⟩, h4⟩ := h
  exact ⟨h1, h2, h3, h4⟩

theorem likesCond_false_of_home {p : FeedParams} (h : homeCond p = true) :
    likesCond p = false := by
  have hu := (homeCond_parts h).1
  simp [likesCond, hu]

theorem getTweetsAux_general (db : DB) (viewer : User) (p : FeedParams)
    (c : Option Nat) (hl : likesCond p = false) (hh : homeCond p = false) :
    getTweetsAux db viewer p c =
      Except.ok (runFind db (tweetMatches (buildCriteria p c)) p.page p.limit) := by
  unfold getTweetsAux
  simp [hl, hh]

theorem getTweets_home (db : DB) (viewer : User) (p : FeedParams)
    (h : homeCond p = true) :
    getTweets db viewer p =
      Except.ok (runFind db (homePred viewer) p.page p.limit) := by
  have hu := (homeCond_parts h).1
  have hl := likesCond_false_of_home h
  unfold getTweets
  rw [hu]
  unfold getTweetsAux
  simp [hl, h]

theorem getTweets_likes (db : DB) (viewer : User) (p : FeedParams) (un : String)
    (hu : p.username = some un) (ht : p.type = some "likes") :
    getTweets db viewer p =
      (match findUserByName db un with
       | none => Except.error Err.notFound
       | some u => Except.ok (runFind db (fun t => u.likes.contains t.id) p.page p.limit)) := by
  have hl : likesCond p = true := by simp [likesCond, hu, ht]
  unfold getTweets
  rw [hu]
  cases hf : findUserByName db un with
  | none => simp [hf]
  | some u =>
    unfold getTweetsAux
    simp [hl, hu, hf, Option.bind]

theorem getTweets_general (db : DB) (viewer : User) (p : FeedParams)
    (hu : p.username = none) (hl : likesCond p = false) (hh : homeCond p = false) :
    getTweets db viewer p =
      Except.ok (runFind db (tweetMatches (buildCriteria p none)) p.page p.limit) := by
  unfold getTweets
  rw [hu]
  exact getTweetsAux_general db viewer p none hl hh

theorem getTweetsAux_ok_shape (db : DB) (viewer : User) (p : FeedParams)
    (c : Option Nat) (l : List Tweet) (h : getTweetsAux db viewer p c = Except.ok l) :
    ∃ pred, l = runFind db pred p.page p.limit := by
  unfold getTweetsAux at h
  by_cases hl : likesCond p = true
  · rw [hl] at h
    simp only [if_true] at h
    cases hb : p.username.bind (fun un => findUserByName db un) with
    | none => rw [hb] at h; cases h
    | some u => rw [hb] at h; exact ⟨_, (Except.ok.inj h).symm⟩
  · have hl2 : likesCond p = false := by revert hl; cases likesCond p <;> simp
    rw [hl2] at h
    simp only [Bool.false_eq_true, if_false] at h
    by_cases hh : homeCond p = true
    · rw [hh] at h
      simp only [if_true] at h
      exact ⟨_, (Except.ok.inj h).symm⟩
    · have hh2 : homeCond p = false := by revert hh; cases homeCond p <;> simp
      rw [hh2] at h
      simp only [Bool.false_eq_true, if_false] at h
      exact ⟨_, (Except.ok.inj h).symm⟩

theorem getTweets_ok_shape (db : DB) (viewer : User) (p : FeedParams)
    (l : List Tweet) (h : getTweets db viewer p = Except.ok l) :
    ∃ pred, l = runFind db pred p.page p.limit := by
  unfold getTweets at h
  cases hu : p.username with
  | none =>
    rw [hu] at h
    exact getTweetsAux_ok_shape db viewer p none l h
  | some un =>
    rw [hu] at h
    have h2 : (match findUserByName db un with
        | none => Except.error Err.notFound
        | some u => getTweetsAux db viewer p (some u.id)) = Except.ok l := h
    cases hf : findUserByName db un with
    | none => rw [hf] at h2; cases h2
    | some u =>
      rw [hf] at h2
      exact getTweetsAux_ok_shape db viewer p (some u.id) l h2

theorem pred_of_mem_runFind {db : DB} {pred : Tweet → Bool} {page limit : Nat}
    {t : Tweet} (h : t ∈ runFind db pred page limit) : pred t = true := by
  unfold runFind at h
  exact (List.mem_filter.mp (mem_sortDesc.mp (mem_paginate h))).2

theorem mem_db_of_mem_runFind {db : DB} {pred : Tweet → Bool} {page limit : Nat}
    {t : Tweet} (h : t ∈ runFind db pred page limit) : t ∈ db.tweets := by
  unfold runFind at h
  exact (List.mem_filter.mp (mem_sortDesc.mp (mem_paginate h))).1

theorem regex_of_tweetMatches {mc : MatchCriteria} {t : Tweet} {q : String}
    (hq : mc.contentRegex = some q) (h : tweetMatches mc t = true) :
    regexMatchI q t.content = true := by
  unfold tweetMatches at h
  rw [hq] at h
  simp only [Bool.and_eq_true] at h
  exact h.1.1.2

theorem homePred_iff {viewer : User} {t : Tweet} :
    homePred viewer t = true ↔
      (t.user ∈ viewer.following ∨ t.user = viewer.id) ∧ t.replyTo = none := by
  simp [homePred, Bool.and_eq_true, Option.isNone_iff_eq_none]

theorem runFind_all {db : DB} {pred : Tweet → Bool} {limit : Nat}
    (h : db.tweets.length ≤ limit) :
    runFind db pred 1 limit = sortByCreatedAtDesc (db.tweets.filter pred) := by
  unfold runFind
  apply paginate_all
  rw [length_sortDesc]
  exact Nat.le_trans (List.length_filter_le _ _) h

theorem applyWrites_pair (db : DB) (w1 w2 : WriteOp) :
    applyWrites db [w1, w2] = applyWrite (applyWrite db w1) w2 := rfl

theorem findTweet_userWrite (db : DB) (i : Nat) (g : User → User) (tid : Nat) :
    findTweet (applyWrite db (WriteOp.userWrite i g)) tid = findTweet db tid := rfl

theorem findUser_tweetWrite (db : DB) (i : Nat) (g : Tweet → Tweet) (uid : Nat) :
    findUser (applyWrite db (WriteOp.tweetWrite i g)) uid = findUser db uid := rfl

theorem findTweet_after_save {db : DB} {tid : Nat} {tw new : Tweet}
    (h : findTweet db tid = some tw) (hid : new.id = tid) :
    findTweet (applyWrite db (WriteOp.tweetWrite tid (fun _ => new))) tid =
      some new := by
  unfold findTweet applyWrite
  exact find?_updateById_eq Tweet.id tid (fun _ => new) (fun x _ => hid) db.tweets tw h

theorem findUser_after_userWrite {db : DB} {uid : Nat} {u0 : User}
    (g : User → User) (h : findUser db uid = some u0)
    (hg : ∀ x, (g x).id = x.id) :
    findUser (applyWrite db (WriteOp.userWrite uid g)) uid = some (g u0) := by
  unfold findUser applyWrite
  exact find?_updateById_eq User.id uid g (fun x hx => by rw [hg x, hx]) db.users u0 h

theorem findUser_after_userWrite_ne {db : DB} {i j : Nat} (g : User → User)
    (hg : ∀ x, (g x).id = x.id) (hij : i ≠ j) :
    findUser (applyWrite db (WriteOp.userWrite i g)) j = findUser db j := by
  unfold findUser applyWrite
  exact find?_updateById_ne User.id i j g hg hij db.users

theorem tweetId_eq_of_findTweet {db : DB} {tid : Nat} {tw : Tweet}
    (h : findTweet db tid = some tw) : tw.id = tid := by
  unfold findTweet at h
  have h2 := List.find?_some h
  exact eq_of_beq h2

/-! ## Claim theorems -/

/-- C1 counterexample: the likes tab is not ordered newest-like-first.
Alice liked tweet 20 (created at time 7) first and tweet 10 (created
at time 3) last, so newest-like-first order is tweet 10 before tweet
20, but the route sorts by createdAt descending and returns tweet 20
before tweet 10. -/
theorem likes_feed_not_newest_like_first :
    getTweets dbLikesScenario userAlice likesScenarioParams =
      Except.ok [tweetNew, tweetOld] ∧
    newestLikeFirst dbLikesScenario userAlice = [tweetOld, tweetNew] ∧
    ([tweetNew, tweetOld] : List Tweet) ≠ [tweetOld, tweetNew] :=
  ⟨rfl, rfl, by decide⟩

/-- C1 (amended): for every request with type likes and a given
username, an unresolvable username fails with NotFound, and otherwise
the result is exactly the tweets whose id is a member of the resolved
user's liked-tweet list, ordered by createdAt descending (by tweet
creation time, not by like recency), with pagination applied; the
searchQuery and replyToId parameters do not appear in the result
expression, so they are ignored in this branch. -/
theorem likes_feed_spec : ∀ (db : DB) (viewer : User) (un : String)
    (q : Option String) (r : Option Nat) (page limit : Nat),
    getTweets db viewer
      { username := some un, query := q, type := some "likes",
        replyToId := r, page := page, limit := limit } =
      (match findUserByName db un with
       | none => Except.error Err.notFound
       | some u =>
         Except.ok (runFind db (fun t => u.likes.contains t.id) page limit)) := by
  intro db viewer un q r page limit
  exact getTweets_likes db viewer _ un rfl rfl

/-- C2: when none of username, searchQuery, replyToId are given and
type is absent or tweets, the feed is the home timeline: it returns
exactly the non-reply tweets authored by the viewer or by a followed
user, sorted by createdAt descending (stated for requests whose first
page covers the whole store, so pagination removes nothing), and in
the concrete scenario where viewer V follows users 1 and 2, with T1
posted by 1 at time 1, reply T2 posted by 2 at time 2, and T3 posted
by 1 at time 3, the home timeline is exactly the pair T3 then T1. -/
theorem home_timeline_spec :
    (∀ (db : DB) (viewer : User) (p : FeedParams), homeCond p = true →
      getTweets db viewer p =
        Except.ok (runFind db (homePred viewer) p.page p.limit)) ∧
    (∀ (db : DB) (viewer : User) (p : FeedParams) (l : List Tweet),
      homeCond p = true → p.page = 1 → db.tweets.length ≤ p.limit →
      getTweets db viewer p = Except.ok l →
      (∀ t : Tweet, t ∈ l ↔
        t ∈ db.tweets ∧ (t.user ∈ viewer.following ∨ t.user = viewer.id) ∧
          t.replyTo = none) ∧
      l.Pairwise (fun a b => b.createdAt ≤ a.createdAt)) ∧
    getTweets dbHomeScenario userV homeScenarioParams =
      Except.ok [tweetT3, tweetT1] := by
  refine ⟨?_, ?_, by rfl⟩
  · intro db viewer p h
    exact getTweets_home db viewer p h
  · intro db viewer p l h hp hl hok
    rw [getTweets_home db viewer p h, hp] at hok
    have hl2 := Except.ok.inj hok
    rw [runFind_all hl] at hl2
    constructor
    · intro t
      rw [← hl2, mem_sortDesc, List.mem_filter]
      constructor
      · rintro ⟨h1, h2⟩; exact ⟨h1, homePred_iff.mp h2⟩
      · rintro ⟨h1, h2⟩; exact ⟨h1, homePred_iff.mpr h2⟩
    · rw [← hl2]
      exact sorted_sortDesc _

/-- C2 witness: the home-timeline equation instantiated at the
concrete scenario store. -/
theorem home_timeline_spec_witness :
    getTweets dbHomeScenario userV homeScenarioParams =
      Except.ok (runFind dbHomeScenario (homePred userV)
        homeScenarioParams.page homeScenarioParams.limit) :=
  home_timeline_spec.1 dbHomeScenario userV homeScenarioParams (by rfl)

/-- C7 counterexample: the search filter hands the raw query to the
regex engine, so a query consisting of a single dot matches the
content a, which does not contain a dot as a literal substring - the
result set is not restricted to literal-substring matches for every
query string. -/
theorem search_not_literal_substring :
    getTweets dbSearchScenario userV searchScenarioParams =
      Except.ok [tweetLetterA] ∧
    containsSubstrCI tweetLetterA.content "." = false :=
  ⟨rfl, rfl⟩

/-- C7 (amended): the search filter restricts the result to tweets
whose content matches the query interpreted as a case-insensitive
regular expression (the query string is not escaped); for queries
containing no regex metacharacter this coincides with case-insensitive
literal substring containment.  Every tweet returned by a feed request
with a searchQuery (outside the likes branch) matches the query as a
regex. -/
theorem search_regex_spec :
    (∀ (q s : String), metaFree q = true →
      regexMatchI q s = containsSubstrCI s q) ∧
    (∀ (db : DB) (viewer : User) (q : String) (page limit : Nat),
      getTweets db viewer
        { username := none, query := some q, type := none, replyToId := none,
          page := page, limit := limit } =
        Except.ok (runFind db
          (fun t => regexMatchI q t.content && t.replyTo.isNone) page limit)) ∧
    (∀ (db : DB) (viewer : User) (p : FeedParams) (q : String) (l : List Tweet),
      p.query = some q → likesCond p = false →
      getTweets db viewer p = Except.ok l →
      ∀ t ∈ l, regexMatchI q t.content = true) := by
  refine ⟨?_, ?_, ?_⟩
  · intro q s h
    exact regexSearch_eq_litSearch (dot_not_mem_of_metaFree h) s.toList
  · intro db viewer q page limit
    rw [getTweets_general db viewer _ rfl (by rfl) (by rfl)]
    have hfil : db.tweets.filter (tweetMatches (buildCriteria
        { username := none, query := some q, type := none, replyToId := none,
          page := page, limit := limit } none)) =
        db.tweets.filter (fun t => regexMatchI q t.content && t.replyTo.isNone) :=
      List.filter_congr (fun t _ => by simp [tweetMatches, buildCriteria])
    simp only [runFind, hfil]
  · intro db viewer p q l hq hnl h t ht
    have hh : homeCond p = false := by simp [homeCond, hq]
    cases hu : p.username with
    | none =>
      rw [getTweets_general db viewer p hu hnl hh] at h
      have hl2 := Except.ok.inj h
      rw [← hl2] at ht
      exact regex_of_tweetMatches (by simp [buildCriteria, hq]) (pred_of_mem_runFind ht)
    | some un =>
      unfold getTweets at h
      rw [hu] at h
      have h2 : (match findUserByName db un with
          | none => Except.error Err.notFound
          | some u => getTweetsAux db viewer p (some u.id)) = Except.ok l := h
      cases hf : findUserByName db un with
      | none => rw [hf] at h2; cases h2
      | some u =>
        rw [hf] at h2
        have h3 : getTweetsAux db viewer p (some u.id) = Except.ok l := h2
        rw [getTweetsAux_general db viewer p (some u.id) hnl hh] at h3
        have hl2 := Except.ok.inj h3
        rw [← hl2] at ht
        exact regex_of_tweetMatches (by simp [buildCriteria, hq]) (pred_of_mem_runFind ht)

/-- C7 witness: on a metacharacter-free query the regex filter is the
literal case-insensitive substring test. -/
theorem search_regex_spec_witness :
    regexMatchI "abc" "xxABCyy" = containsSubstrCI "xxABCyy" "abc" :=
  search_regex_spec.1 "abc" "xxABCyy" (by decide)

/-- C8: every successful feed result is the slice of a full sorted
match list starting at offset (page-1)*limit with at most limit
elements, and an offset at or beyond the end yields the empty list
rather than an error; no upper bound on limit is enforced, so a limit
at least the full length returns everything; with 25 matching tweets,
page 2 with limit 10 returns items 10 through 19 and page 4 with
limit 10 returns the empty sequence. -/
theorem pagination_spec :
    (∀ (db : DB) (viewer : User) (p : FeedParams) (l : List Tweet),
      getTweets db viewer p = Except.ok l →
      ∃ full : List Tweet,
        l = (full.drop ((p.page - 1) * p.limit)).take p.limit ∧
        l.length ≤ p.limit ∧
        (full.length ≤ (p.page - 1) * p.limit → l = [])) ∧
    (∀ (l : List Tweet) (limit : Nat), l.length ≤ limit →
      paginate 1 limit l = l) ∧
    paginate 2 10 demoFeed25 =
      [demoTweet 10, demoTweet 11, demoTweet 12, demoTweet 13, demoTweet 14,
       demoTweet 15, demoTweet 16, demoTweet 17, demoTweet 18, demoTweet 19] ∧
    paginate 4 10 demoFeed25 = [] := by
  refine ⟨?_, ?_, by rfl, by rfl⟩
  · intro db viewer p l h
    obtain ⟨pred, hl⟩ := getTweets_ok_shape db viewer p l h
    refine ⟨sortByCreatedAtDesc (db.tweets.filter pred), ?_, ?_, ?_⟩
    · exact hl
    · rw [hl]
      exact length_paginate_le p.page p.limit _
    · intro hlen
      rw [hl]
      exact paginate_eq_nil hlen
  · intro l limit h
    exact paginate_all h

/-- C8 witness: the pagination shape instantiated at the concrete
home-timeline scenario request. -/
theorem pagination_spec_witness :
    ∃ full : List Tweet,
      [tweetT3, tweetT1] =
        (full.drop ((homeScenarioParams.page - 1) * homeScenarioParams.limit)).take
          homeScenarioParams.limit ∧
      ([tweetT3, tweetT1] : List Tweet).length ≤ homeScenarioParams.limit ∧
      (full.length ≤ (homeScenarioParams.page - 1) * homeScenarioParams.limit →
        [tweetT3, tweetT1] = []) :=
  pagination_spec.1 dbHomeScenario userV homeScenarioParams [tweetT3, tweetT1] (by rfl)

/-- C6: follow and unfollow on self always fail with InvalidOperation,
for every store state: since the statement quantifies over all stores
it covers in particular stores holding no user with the viewer's id,
so the failure happens before any existence check on the target. -/
theorem self_follow_invalid : ∀ (db : DB) (viewer : User),
    followUser db viewer viewer.id = Except.error Err.invalidOp ∧
    unfollowUser db viewer viewer.id = Except.error Err.invalidOp := by
  intro db viewer
  constructor <;> simp [followUser, unfollowUser]

/-- C3: for every existing tweet, the like action fails with Conflict
exactly when the viewer id is already in the tweet's likes list, the
unlike action exactly when it is absent, and symmetrically for
retweet and unretweet on the retweets list; a Conflict failure
returns the store unchanged. -/
theorem conflict_guards_spec : ∀ (db : DB) (uid tid : Nat) (tw : Tweet),
    findTweet db tid = some tw →
    ((likeTweet db uid tid = Except.error Err.conflict) ↔
      tw.likes.contains uid = true) ∧
    ((unlikeTweet db uid tid = Except.error Err.conflict) ↔
      tw.likes.contains uid = false) ∧
    ((retweetTweet db uid tid = Except.error Err.conflict) ↔
      tw.retweets.contains uid = true) ∧
    ((unretweetTweet db uid tid = Except.error Err.conflict) ↔
      tw.retweets.contains uid = false) ∧
    (tw.likes.contains uid = true → likeRun db uid tid = (db, some Err.conflict)) ∧
    (tw.likes.contains uid = false → unlikeRun db uid tid = (db, some Err.conflict)) ∧
    (tw.retweets.contains uid = true → retweetRun db uid tid = (db, some Err.conflict)) ∧
    (tw.retweets.contains uid = false → unretweetRun db uid tid = (db, some Err.conflict)) := by
  intro db uid tid tw h
  by_cases hl : uid ∈ tw.likes <;> by_cases hr : uid ∈ tw.retweets <;>
    simp [likeTweet, unlikeTweet, retweetTweet, unretweetTweet, likeRun,
      unlikeRun, retweetRun, unretweetRun, h, hl, hr]

/-- C3 witness: the like conflict guard instantiated at the concrete
witness store (tweet 5 is liked by user 9, not by user 7). -/
theorem conflict_guards_witness :
    (likeTweet wDB 7 5 = Except.error Err.conflict) ↔
      wTweet.likes.contains 7 = true :=
  (conflict_guards_spec wDB 7 5 wTweet (by rfl)).1

/-- C4: for every existing tweet and viewer not already in its likes
list, a successful like followed by a successful unlike restores the
tweet document - in particular its likes list - to exactly its
pre-like state. -/
theorem like_unlike_round_trip : ∀ (db : DB) (uid tid : Nat) (tw : Tweet),
    findTweet db tid = some tw → tw.likes.contains uid = false →
    (likeRun db uid tid).2 = none ∧
    (unlikeRun (likeRun db uid tid).1 uid tid).2 = none ∧
    findTweet (unlikeRun (likeRun db uid tid).1 uid tid).1 tid = some tw := by
  intro db uid tid tw h hc
  have htid : tw.id = tid := tweetId_eq_of_findTweet h
  have hc2 : uid ∉ tw.likes := by simpa using hc
  have hlike : likeTweet db uid tid = Except.ok
      [ WriteOp.tweetWrite tid (fun _ => { tw with likes := uid :: tw.likes }),
        WriteOp.userWrite uid (fun u => { u with likes := u.likes ++ [tid] }) ] := by
    unfold likeTweet
    rw [h]
    simp [hc2, htid]
  have hrun1 : likeRun db uid tid =
      (applyWrite
        (applyWrite db (WriteOp.tweetWrite tid (fun _ => { tw with likes := uid :: tw.likes })))
        (WriteOp.userWrite uid (fun u => { u with likes := u.likes ++ [tid] })), none) := by
    unfold likeRun
    rw [hlike]
    rfl
  have hfind1 : findTweet (likeRun db uid tid).1 tid =
      some { tw with likes := uid :: tw.likes } := by
    rw [hrun1]
    rw [findTweet_userWrite]
    exact findTweet_after_save h htid
  have hcontains : ({ tw with likes := uid :: tw.likes } : Tweet).likes.contains uid = true := by
    simp
  have hfilter : List.filter (fun l => !(l == uid)) (uid :: tw.likes) = tw.likes := by
    rw [List.filter_cons]
    simp only [beq_self_eq_true, Bool.not_true, Bool.false_eq_true, if_false]
    exact filter_ne_of_contains_false hc
  have hunlike : unlikeTweet (likeRun db uid tid).1 uid tid = Except.ok
      [ WriteOp.tweetWrite tid (fun _ => tw),
        WriteOp.userWrite uid (fun u => { u with likes := u.likes.filter (fun x => !(x == tid)) }) ] := by
    unfold unlikeTweet
    rw [hfind1]
    simp [hcontains, htid, hfilter]
    funext x
    rw [← htid]
  have hrun2 : unlikeRun (likeRun db uid tid).1 uid tid =
      (applyWrite
        (applyWrite (likeRun db uid tid).1 (WriteOp.tweetWrite tid (fun _ => tw)))
        (WriteOp.userWrite uid (fun u => { u with likes := u.likes.filter (fun x => !(x == tid)) })),
        none) := by
    unfold unlikeRun
    rw [hunlike]
    rfl
  refine ⟨?_, ?_, ?_⟩
  · rw [hrun1]
  · rw [hrun2]
  · rw [hrun2]
    rw [findTweet_userWrite]
    exact findTweet_after_save hfind1 htid

/-- C4 witness: the round trip instantiated at the concrete witness
store (viewer 7 likes and unlikes tweet 5). -/
theorem like_unlike_round_trip_witness :
    (likeRun wDB 7 5).2 = none ∧
    (unlikeRun (likeRun wDB 7 5).1 7 5).2 = none ∧
    findTweet (unlikeRun (likeRun wDB 7 5).1 7 5).1 5 = some wTweet :=
  like_unlike_round_trip wDB 7 5 wTweet (by rfl) (by rfl)

/-- C5: for every viewer and distinct existing target, a successful
follow performs exactly two writes, after which the target id is in
the viewer's following list and the viewer id is in the target's
followers list (both sides of the mirrored relation updated). -/
theorem follow_two_writes : ∀ (db : DB) (viewer : User) (target : Nat) (v0 : User),
    target ≠ viewer.id → findUser db target = some v0 →
    viewer.following.contains target = false →
    ∃ ws, followUser db viewer target = Except.ok ws ∧ ws.length = 2 ∧
      (findUser db viewer.id = some viewer →
        ∃ u1, findUser (applyWrites db ws) viewer.id = some u1 ∧
          u1.following = viewer.following ++ [target] ∧
          u1.following.contains target = true) ∧
      (∃ v1, findUser (applyWrites db ws) target = some v1 ∧
        v1.followers = v0.followers ++ [viewer.id] ∧
        v1.followers.contains viewer.id = true) := by
  intro db viewer target v0 hne hfv hnf
  have hbeq : (target == viewer.id) = false := by simp [hne]
  have hnf2 : target ∉ viewer.following := by simpa using hnf
  have hfollow : followUser db viewer target = Except.ok
      [ WriteOp.userWrite viewer.id (fun u => { u with following := u.following ++ [target] }),
        WriteOp.userWrite target (fun u => { u with followers := u.followers ++ [viewer.id] }) ] := by
    unfold followUser
    simp [hbeq, hfv, hnf2]
  refine ⟨_, hfollow, rfl, ?_, ?_⟩
  · intro hfu
    refine ⟨{ viewer with following := viewer.following ++ [target] }, ?_, rfl, by simp⟩
    rw [applyWrites_pair]
    rw [findUser_after_userWrite_ne
      (fun u => { u with followers := u.followers ++ [viewer.id] }) (fun x => rfl) hne]
    exact findUser_after_userWrite _ hfu (fun x => rfl)
  · refine ⟨{ v0 with followers := v0.followers ++ [viewer.id] }, ?_, rfl, by simp⟩
    rw [applyWrites_pair]
    have hstep : findUser
        (applyWrite db (WriteOp.userWrite viewer.id
          (fun u => { u with following := u.following ++ [target] }))) target = some v0 := by
      rw [findUser_after_userWrite_ne
        (fun u => { u with following := u.following ++ [target] }) (fun x => rfl) (Ne.symm hne)]
      exact hfv
    exact findUser_after_userWrite _ hstep (fun x => rfl)

/-- C9 counterexample: on a tweet whose reply parent was preloaded
but whose parent author was not, the annotator does not return a null
replyToUser - the whole call fails (the code reads a field of null,
which the route turns into the 500 store-error response). -/
theorem annotate_dangling_author_fails :
    addUserInteractionInfo wDB [wDangling] wViewer =
      Except.error Err.storeError ∧
    wDangling.replyTo.isSome = true :=
  ⟨rfl, rfl⟩

/-- C9 (amended): on every successfully annotated tweet, replyToUser
is the preloaded reply-parent's author summary when the parent and
its author were both preloaded, and null when the tweet has no
preloaded parent (no replyToId, or the parent tweet itself missing);
when a parent is preloaded whose author is not, annotation fails
with StoreError for the whole call instead of returning null. -/
theorem annotate_reply_to_user_spec :
    (∀ (db : DB) (user : User) (pt : PopulatedTweet) (a : AnnotatedTweet),
      annotateOne db user pt = Except.ok a →
      a.replyToUser = pt.replyTo.bind (fun parent => parent.user) ∧
      (pt.replyTo = none → a.replyToUser = none) ∧
      (∀ parent, pt.replyTo = some parent →
        ∃ author, parent.user = some author ∧ a.replyToUser = some author)) ∧
    (∀ (db : DB) (user : User) (pts : List PopulatedTweet)
      (pt : PopulatedTweet) (parent : PopulatedReply),
      pt ∈ pts → pt.replyTo = some parent → parent.user = none →
      addUserInteractionInfo db pts user = Except.error Err.storeError) := by
  constructor
  · intro db user pt a h
    rcases hr : pt.replyTo with _ | parent
    · unfold annotateOne at h
      rw [hr] at h
      have ha := Except.ok.inj h
      refine ⟨?_, fun _ => ?_, ?_⟩
      · simp [← ha]
      · simp [← ha]
      · intro parent hp
        cases hp
    · rcases hu : parent.user with _ | author
      · simp [annotateOne, hr, hu] at h
      · simp only [annotateOne, hr, hu, Except.ok.injEq] at h
        have ha := h
        refine ⟨?_, ?_, ?_⟩
        · simp [← ha, hu]
        · intro hnone
          cases hnone
        · intro parent2 hp
          have hpp : parent = parent2 := by injection hp
          subst hpp
          exact ⟨author, hu, by simp [← ha]⟩
  · intro db user pts pt parent hmem hr hu
    apply mapExcept_error_of_mem _ pts pt hmem
    · simp [annotateOne, hr, hu]
    · intro y e hy
      exact annotateOne_error hy

/-- C9 witness: the annotation equation instantiated at a tweet whose
parent and parent author were both preloaded. -/
theorem annotate_reply_to_user_witness :
    wAnnotated.replyToUser = wPopulated.replyTo.bind (fun parent => parent.user) ∧
    (wPopulated.replyTo = none → wAnnotated.replyToUser = none) ∧
    (∀ parent, wPopulated.replyTo = some parent →
      ∃ author, parent.user = some author ∧ wAnnotated.replyToUser = some author) :=
  annotate_reply_to_user_spec.1 wDB wViewer wPopulated wAnnotated (by rfl)

/-- C10: the idempotency guards are one-sided.  The like guard reads
only the tweet-side likes list, so when the mirror invariant is
already violated (the viewer's likes list holds the tweet id while
the tweet's list does not hold the viewer), the like succeeds and the
store push appends a duplicate tweet id to the viewer's list; the
follow guard reads only the viewer's following list, so the
symmetric violation makes a successful follow append a duplicate
viewer id to the target's followers list. -/
theorem one_sided_guards :
    (∀ (db : DB) (uid tid : Nat) (tw : Tweet) (u0 : User),
      findTweet db tid = some tw → tw.likes.contains uid = false →
      findUser db uid = some u0 → u0.likes.contains tw.id = true →
      ∃ ws, likeTweet db uid tid = Except.ok ws ∧
        ∃ u1, findUser (applyWrites db ws) uid = some u1 ∧
          u1.likes = u0.likes ++ [tw.id] ∧ 2 ≤ u1.likes.count tw.id) ∧
    (∀ (db : DB) (viewer : User) (target : Nat) (v0 : User),
      target ≠ viewer.id → findUser db target = some v0 →
      viewer.following.contains target = false →
      v0.followers.contains viewer.id = true →
      ∃ ws, followUser db viewer target = Except.ok ws ∧
        ∃ v1, findUser (applyWrites db ws) target = some v1 ∧
          v1.followers = v0.followers ++ [viewer.id] ∧
          2 ≤ v1.followers.count viewer.id) := by
  constructor
  · intro db uid tid tw u0 h hc hfu hviol
    have hc2 : uid ∉ tw.likes := by simpa using hc
    have hlike : likeTweet db uid tid = Except.ok
        [ WriteOp.tweetWrite tw.id (fun _ => { tw with likes := uid :: tw.likes }),
          WriteOp.userWrite uid (fun u => { u with likes := u.likes ++ [tw.id] }) ] := by
      unfold likeTweet
      rw [h]
      simp [hc2]
    refine ⟨_, hlike, { u0 with likes := u0.likes ++ [tw.id] }, ?_, rfl, ?_⟩
    · rw [applyWrites_pair]
      have hstep : findUser
          (applyWrite db (WriteOp.tweetWrite tw.id
            (fun _ => { tw with likes := uid :: tw.likes }))) uid = some u0 := by
        rw [findUser_tweetWrite]
        exact hfu
      exact findUser_after_userWrite _ hstep (fun x => rfl)
    · have hm : tw.id ∈ u0.likes := by simpa using hviol
      have h1 : 0 < u0.likes.count tw.id := List.count_pos_iff.mpr hm
      have h2 : (u0.likes ++ [tw.id]).count tw.id = u0.likes.count tw.id + 1 := by
        simp
      show 2 ≤ (u0.likes ++ [tw.id]).count tw.id
      omega
  · intro db viewer target v0 hne hfv hnf hviol
    have hbeq : (target == viewer.id) = false := by simp [hne]
    have hnf2 : target ∉ viewer.following := by simpa using hnf
    have hfollow : followUser db viewer target = Except.ok
        [ WriteOp.userWrite viewer.id (fun u => { u with following := u.following ++ [target] }),
          WriteOp.userWrite target (fun u => { u with followers := u.followers ++ [viewer.id] }) ] := by
      unfold followUser
      simp [hbeq, hfv, hnf2]
    refine ⟨_, hfollow, { v0 with followers := v0.followers ++ [viewer.id] }, ?_, rfl, ?_⟩
    · rw [applyWrites_pair]
      have hstep : findUser
          (applyWrite db (WriteOp.userWrite viewer.id
            (fun u => { u with following := u.following ++ [target] }))) target = some v0 := by
        rw [findUser_after_userWrite_ne
          (fun u => { u with following := u.following ++ [target] }) (fun x => rfl) (Ne.symm hne)]
        exact hfv
      exact findUser_after_userWrite _ hstep (fun x => rfl)
    · have hm : viewer.id ∈ v0.followers := by simpa using hviol
      have h1 : 0 < v0.followers.count viewer.id := List.count_pos_iff.mpr hm
      have h2 : (v0.followers ++ [viewer.id]).count viewer.id =
          v0.followers.count viewer.id + 1 := by
        simp
      show 2 ≤ (v0.followers ++ [viewer.id]).count viewer.id
      omega

/-- C10 witness: the one-sided like guard instantiated at the
violated-mirror store: user 7 already lists tweet 5 as liked while
tweet 5 does not list user 7, and the like still succeeds and
duplicates the entry. -/
theorem one_sided_guards_witness :
    ∃ ws, likeTweet wDBViolated 7 5 = Except.ok ws ∧
      ∃ u1, findUser (applyWrites wDBViolated ws) 7 = some u1 ∧
        u1.likes = ({ wViewer with likes := [5] } : User).likes ++ [wTweet.id] ∧
        2 ≤ u1.likes.count wTweet.id :=
  one_sided_guards.1 wDBViolated 7 5 wTweet { wViewer with likes := [5] }
    (by rfl) (by rfl) (by rfl) (by rfl)

/-- C5 witness: the follow effect instantiated at the concrete witness
store (viewer 7 follows target 8). -/
theorem follow_two_writes_witness :
    ∃ ws, followUser wDB wViewer 8 = Except.ok ws ∧ ws.length = 2 ∧
      (findUser wDB wViewer.id = some wViewer →
        ∃ u1, findUser (applyWrites wDB ws) wViewer.id = some u1 ∧
          u1.following = wViewer.following ++ [8] ∧
          u1.following.contains 8 = true) ∧
      (∃ v1, findUser (applyWrites wDB ws) 8 = some v1 ∧
        v1.followers = wTarget.followers ++ [wViewer.id] ∧
        v1.followers.contains wViewer.id = true) :=
  follow_two_writes wDB wViewer 8 wTarget (by decide) (by rfl) (by rfl)

end TwBackend
